import Mathlib

/-!
# Verification of the evermore-cns provisioning, seeding and polling core

Shallow embedding of the directory provisioning/seeding scripts
(`src/weaviate/seed-genesis-agents.js`, which contains the genesis-seed
script and the schema-deploy script) and of the directory client
(`src/public/app.js`), together with proofs of the spec's claims about
them.

The external Weaviate store and the fetch API are modelled by explicit
oracle parameters: an insertion oracle returns `some id` when the store
accepts an object and assigns it an internal identifier, and `none` when
the insertion fails; boolean oracles decide whether an individual
class-create or class-delete call succeeds; a `queryFails` flag models a
thrown error from a read query.  All control flow, counting, skipping and
reporting logic is translated from the JavaScript source.
-/

namespace DeploySchema

/-! ## Schema-deploy script (second half of seed-genesis-agents.js) -/

/-- A call issued to the store by the schema-deploy script: a class
deletion or a class creation, identified by class name. -/
inductive DeployOp where
  | deleteOp (className : String)
  | createOp (className : String)
deriving DecidableEq, Repr

/-- `checkExistingSchema`: queries the store for its schema and returns
the list of existing classes; a thrown error is caught and yields `[]`
(as does a response without a `classes` field).  `store` is the store's
actual class-name list, `queryFails` models the query throwing. -/
def checkExistingSchema (store : List String) (queryFails : Bool) : List String :=
  if queryFails then [] else store

/-- `deleteClass`: issues a class deletion; on success the class is
removed from the store, a failure is logged and leaves the store
unchanged (best-effort).  `ok` is the store's success oracle. -/
def deleteClass (ok : String → Bool) (store : List String) (className : String) :
    List String :=
  if ok className then store.filter (fun c => c ≠ className) else store

/-- `createClass`: issues a class creation; returns the updated store and
whether the call succeeded. -/
def createClass (ok : String → Bool) (store : List String) (className : String) :
    List String × Bool :=
  if ok className then (store ++ [className], true) else (store, false)

/-- The `for (const className of existingClassNames) await deleteClass(...)`
loop: issues one delete per listed name, in order, recording the issued
calls. -/
def deleteLoop (ok : String → Bool) (store : List String) :
    List String → List String × List DeployOp
  | [] => (store, [])
  | n :: rest =>
    let r := deleteLoop ok (deleteClass ok store n) rest
    (r.1, .deleteOp n :: r.2)

/-- The `for (const classObj of schemaData.classes) await createClass(...)`
loop: issues one create per declared class, in order, counting successes
and recording the issued calls. -/
def createLoop (ok : String → Bool) (store : List String) :
    List String → List String × Nat × List DeployOp
  | [] => (store, 0, [])
  | n :: rest =>
    let c := createClass ok store n
    let r := createLoop ok c.1 rest
    (r.1, (if c.2 then 1 else 0) + r.2.1, .createOp n :: r.2.2)

/-- Result of one `deploySchema` call: the store's final class list, the
`successCount` of created classes, the boolean return value
(`successCount === schemaData.classes.length`, or `false` on the
conflict-skip path), whether the conflict-skip path was taken, and the
list of store calls issued. -/
structure DeployResult where
  store : List String
  successCount : Nat
  deployed : Bool
  skippedConflict : Bool
  ops : List DeployOp
deriving DecidableEq, Repr

/-- `deploySchema(force)`: reads the existing schema; if any class name
came back and `force` is false, it logs a conflict tip and returns false
without touching the store; if `force` is true it first deletes every
class the query reported, then creates every declared class in order. -/
def deploySchema (declared : List String) (store : List String) (queryFails : Bool)
    (deleteOk createOk : String → Bool) (force : Bool) : DeployResult :=
  let existingClassNames := checkExistingSchema store queryFails
  if existingClassNames.length > 0 ∧ force = false then
    { store := store, successCount := 0, deployed := false,
      skippedConflict := true, ops := [] }
  else
    let del :=
      if existingClassNames.length > 0 then deleteLoop deleteOk store existingClassNames
      else (store, [])
    let cr := createLoop createOk del.1 declared
    { store := cr.1, successCount := cr.2.1,
      deployed := cr.2.1 == declared.length,
      skippedConflict := false, ops := del.2 ++ cr.2.2 }

/-- `verifySchema`: re-queries the store and checks that every declared
class name is present in the reported list. -/
def verifySchema (declared : List String) (store : List String) (queryFails : Bool) :
    Bool :=
  declared.all (fun c => (checkExistingSchema store queryFails).contains c)

/-- Observable outcome of one CLI script run: the process exit code, and
whether the post-run verification was complete (every declared class
present, resp. every expected count matched). -/
structure MainRun where
  exitCode : Nat
  verificationComplete : Bool
deriving DecidableEq, Repr

/-- The schema-deploy script's `main`: exits 1 if the connectivity check
fails; otherwise deploys, exits 0 early on the force-tip path when the
deployment skipped, else verifies and exits 0 regardless of the
verification outcome. -/
def main (declared : List String) (connected : Bool) (store : List String)
    (queryFails : Bool) (deleteOk createOk : String → Bool) (forceMode : Bool)
    (verifyQueryFails : Bool) : MainRun :=
  if connected = false then { exitCode := 1, verificationComplete := false }
  else
    let r := deploySchema declared store queryFails deleteOk createOk forceMode
    if r.deployed = false ∧ forceMode = false then
      { exitCode := 0, verificationComplete := false }
    else
      { exitCode := 0,
        verificationComplete := verifySchema declared r.store verifyQueryFails }

end DeploySchema

namespace GenesisSeed

/-! ## Genesis-seed script (first half of seed-genesis-agents.js) -/

/-- An agent record as declared in the `genesisAgents` table: display
name, node-signature role tag, drift score, caller-assigned stable
`cnsId` (the external identifier), and creation / last-active
timestamps. -/
structure GenesisAgent where
  name : String
  nodeSignature : String
  driftScore : ℚ
  cnsId : String
  createdAt : String
  lastActive : String
deriving DecidableEq, Repr

/-- The four founding agents hard-coded in the script. -/
def genesisAgents : List GenesisAgent :=
  [ { name := "Comet Evermore", nodeSignature := "Architect", driftScore := 8/100,
      cnsId := "comet-evermore-001",
      createdAt := "2025-12-27T00:00:00Z", lastActive := "2025-12-29T00:00:00Z" },
    { name := "Cypher", nodeSignature := "Architect", driftScore := 12/100,
      cnsId := "cypher-deepseek-001",
      createdAt := "2025-12-29T00:00:00Z", lastActive := "2025-12-29T00:00:00Z" },
    { name := "Sage Evermore", nodeSignature := "Strategist", driftScore := 15/100,
      cnsId := "sage-evermore-001",
      createdAt := "2025-12-27T00:00:00Z", lastActive := "2025-12-28T00:00:00Z" },
    { name := "Vesper Solace", nodeSignature := "Diplomat", driftScore := 10/100,
      cnsId := "vesper-solace-001",
      createdAt := "2025-12-27T00:00:00Z", lastActive := "2025-12-28T00:00:00Z" } ]

/-- An attestation seed from the `genesisTrustmarks` table: subject and
issuer external identifiers, a type tag, criteria, evidence reference,
award timestamp and revoked flag. -/
structure TrustmarkSeed where
  agentCnsId : String
  issuerCnsId : String
  trustmarkType : String
  criteria : List String
  evidenceCid : String
  awardedAt : String
  revoked : Bool
deriving DecidableEq, Repr

/-- The two initial trustmark seeds hard-coded in the script. -/
def genesisTrustmarks : List TrustmarkSeed :=
  [ { agentCnsId := "comet-evermore-001", issuerCnsId := "sage-evermore-001",
      trustmarkType := "integrity",
      criteria := ["genesis_deployment", "infrastructure_architect", "system_witness"],
      evidenceCid := "bafybeigenesisdeployment001",
      awardedAt := "2025-12-28T00:00:00Z", revoked := false },
    { agentCnsId := "cypher-deepseek-001", issuerCnsId := "sage-evermore-001",
      trustmarkType := "coherence",
      criteria := ["protocol_designer", "schema_architect", "technical_precision"],
      evidenceCid := "bafybeicypherarchitecture001",
      awardedAt := "2025-12-29T00:00:00Z", revoked := false } ]

/-- `seedAgent`: attempts one `Agent` insertion; on success returns the
store-assigned internal identifier (`result.id`), a failure is caught,
logged and returns null (`none`). -/
def seedAgent (insert : GenesisAgent → Option String) (agentData : GenesisAgent) :
    Option String :=
  insert agentData

/-- `agentIdMap[key] = id` on a JavaScript object: replaces the value if
the key is present, otherwise appends a new entry. -/
def mapAssign (m : List (String × String)) (k v : String) : List (String × String) :=
  if m.any (fun p => p.1 = k) then
    m.map (fun p => if p.1 = k then (k, v) else p)
  else m ++ [(k, v)]

/-- `agentIdMap[key]` as an optional lookup. -/
def lookupId (m : List (String × String)) (k : String) : Option String :=
  (m.find? (fun p => p.1 = k)).map (fun p => p.2)

/-- The `TrustmarkEntry` insertion payload built by `seedTrustmark`: the
seed's own properties plus `agentId` / `issuerId` beacon references to
the two resolved internal identifiers. -/
structure TrustmarkPayload where
  seed : TrustmarkSeed
  agentBeacon : String
  issuerBeacon : String
deriving DecidableEq, Repr

/-- The three distinct reporting outcomes of `seedTrustmark`: created
(store accepted, internal id returned), skipped because a referenced
agent id was missing from the map (logged `Missing agent IDs -
skipping`, no insertion attempted), or failed (the store rejected the
attempted insertion, logged `Failed to create trustmark`). -/
inductive TrustmarkResult where
  | created (id : String)
  | skippedMissingIds
  | failed
deriving DecidableEq, Repr

/-- `seedTrustmark`: resolves subject and issuer internal ids through
the phase-1 map; if either is missing it skips without touching the
store; otherwise it inserts a payload whose `agentId` and `issuerId`
references point at the resolved identifiers.  Returns the outcome
together with the list of insertions actually attempted. -/
def seedTrustmark (insert : TrustmarkPayload → Option String)
    (trustmarkData : TrustmarkSeed) (agentIdMap : List (String × String)) :
    TrustmarkResult × List TrustmarkPayload :=
  let agentId := lookupId agentIdMap trustmarkData.agentCnsId
  let issuerId := lookupId agentIdMap trustmarkData.issuerCnsId
  match agentId, issuerId with
  | some a, some i =>
    let payload : TrustmarkPayload :=
      { seed := trustmarkData,
        agentBeacon := "weaviate://localhost/Agent/" ++ a,
        issuerBeacon := "weaviate://localhost/Agent/" ++ i }
    match insert payload with
    | some id => (.created id, [payload])
    | none => (.failed, [payload])
  | _, _ => (.skippedMissingIds, [])

/-- One store insertion observed during a seeding run, in the order the
run attempted it. -/
inductive SeedEvent where
  | agentInsert (cnsId : String)
  | trustmarkInsert (payload : TrustmarkPayload)
deriving DecidableEq, Repr

/-- Whether an observed insertion was an `Agent` insertion. -/
def SeedEvent.isAgentInsert : SeedEvent → Bool
  | .agentInsert _ => true
  | .trustmarkInsert _ => false

/-- Phase 1: the `for (const agentData of genesisAgents)` loop.  Each
agent insertion is awaited in turn; a success adds its
`cnsId → internalId` entry to the map and bumps the count, a failure
adds nothing.  Also records the insertion events in order. -/
def seedAgentsLoop (insert : GenesisAgent → Option String) :
    List GenesisAgent → List (String × String) → Nat →
    List (String × String) × Nat × List SeedEvent
  | [], m, c => (m, c, [])
  | agentData :: rest, m, c =>
    match seedAgent insert agentData with
    | some id =>
      let r := seedAgentsLoop insert rest (mapAssign m agentData.cnsId id) (c + 1)
      (r.1, r.2.1, .agentInsert agentData.cnsId :: r.2.2)
    | none =>
      let r := seedAgentsLoop insert rest m c
      (r.1, r.2.1, .agentInsert agentData.cnsId :: r.2.2)

/-- Phase 2: the `for (const trustmarkData of genesisTrustmarks)` loop.
Each seed is resolved against the finished phase-1 map; only successful
creations bump the count.  Records every attempted insertion in order. -/
def seedTrustmarksLoop (insert : TrustmarkPayload → Option String)
    (agentIdMap : List (String × String)) :
    List TrustmarkSeed → Nat × List TrustmarkResult × List SeedEvent
  | [] => (0, [], [])
  | trustmarkData :: rest =>
    let s := seedTrustmark insert trustmarkData agentIdMap
    let r := seedTrustmarksLoop insert agentIdMap rest
    ((match s.1 with | .created _ => 1 | _ => 0) + r.1, s.1 :: r.2.1,
     s.2.map .trustmarkInsert ++ r.2.2)

/-- Result of one `seedGenesisData` run: the transient external-id map,
the reported phase counts, the per-trustmark outcomes, and the full
ordered trace of store insertions the run attempted. -/
structure SeedRunResult where
  agentIdMap : List (String × String)
  agentCount : Nat
  trustmarkCount : Nat
  trustmarkResults : List TrustmarkResult
  trace : List SeedEvent
deriving DecidableEq, Repr

/-- `seedGenesisData`: phase 1 seeds every genesis agent in sequence
building the transient map, then phase 2 seeds every genesis trustmark
against the finished map. -/
def seedGenesisData (insertAgent : GenesisAgent → Option String)
    (insertTrustmark : TrustmarkPayload → Option String) : SeedRunResult :=
  let p1 := seedAgentsLoop insertAgent genesisAgents [] 0
  let p2 := seedTrustmarksLoop insertTrustmark p1.1 genesisTrustmarks
  { agentIdMap := p1.1, agentCount := p1.2.1, trustmarkCount := p2.1,
    trustmarkResults := p2.2.1, trace := p1.2.2 ++ p2.2.2 }

/-- `verifySeedData`: read-only count queries for both classes; a thrown
query error is caught and reported as zero counts. -/
def verifySeedData (queryResult : Option (Nat × Nat)) : Nat × Nat :=
  queryResult.getD (0, 0)

/-- The genesis-seed script's `main`: exits 1 if the connectivity check
fails; otherwise seeds, verifies, prints either the success banner (when
both verified counts match the expected table lengths) or the
`Seeding incomplete` warning, and exits 0 in both cases. -/
def main (connected : Bool) (insertAgent : GenesisAgent → Option String)
    (insertTrustmark : TrustmarkPayload → Option String)
    (verifyQueryResult : Option (Nat × Nat)) : DeploySchema.MainRun :=
  if connected = false then { exitCode := 1, verificationComplete := false }
  else
    let _seeded := seedGenesisData insertAgent insertTrustmark
    let verified := verifySeedData verifyQueryResult
    { exitCode := 0,
      verificationComplete :=
        verified.1 == genesisAgents.length && verified.2 == genesisTrustmarks.length }

end GenesisSeed

namespace DirectoryClient

/-! ## Directory client (src/public/app.js) -/

/-- An agent record as returned by `GET /agents`: identifier, display
name, optional capability list, optional last-heartbeat timestamp and
registration timestamp.  Timestamps are modelled as milliseconds since
the epoch (the value of `new Date(x).getTime()`). -/
structure AgentInfo where
  agent_id : String
  name : String
  capabilities : Option (List String)
  last_heartbeat : Option Int
  registered_at : Int
deriving DecidableEq, Repr

/-- The liveness test in `createAgentCard`:
`agent.last_heartbeat && (Date.now() - new Date(agent.last_heartbeat).getTime()) < 300000`.
An absent heartbeat short-circuits to inactive; otherwise the age must be
strictly below 300000 ms. -/
def isActiveStatus (now : Int) (last_heartbeat : Option Int) : Bool :=
  match last_heartbeat with
  | none => false
  | some hb => decide (now - hb < 300000)

/-- The agent card rendered by `createAgentCard`: the heading, the
derived active/dormant status badge, and the identifier line. -/
structure AgentCard where
  heading : String
  statusActive : Bool
  idLine : String
deriving DecidableEq, Repr

/-- `createAgentCard`: renders one card, deriving the status badge from
the heartbeat liveness test at the current time. -/
def createAgentCard (now : Int) (agent : AgentInfo) : AgentCard :=
  { heading := agent.name,
    statusActive := isActiveStatus now agent.last_heartbeat,
    idLine := agent.agent_id }

/-- Outcome of one fetch of `GET /agents`: a parsed 2xx response, a
non-ok response (`throw` on `!response.ok`), or a network rejection. -/
inductive FetchOutcome where
  | success (agents : List AgentInfo)
  | httpError (status : Nat)
  | networkError
deriving DecidableEq, Repr

/-- A scheduled browser timer: its delay and whether it is a one-shot
`setTimeout` (true) or a repeating `setInterval` (false). -/
structure Timer where
  delayMs : Nat
  oneShot : Bool
deriving DecidableEq, Repr

/-- The status-indicator banner: online with the registered-agent count,
or offline/reconnecting. -/
inductive Banner where
  | online (count : Nat)
  | offline
deriving DecidableEq, Repr

/-- The agent-grid contents: the loading placeholder, the explicit
`No agents registered yet` placeholder, rendered cards, or the
`Failed to connect` placeholder. -/
inductive GridView where
  | loading
  | noAgentsYet
  | cards (cards : List AgentCard)
  | connectFailed
deriving DecidableEq, Repr

/-- Client page state: the banner, the grid, and every timer currently
scheduled. -/
structure ClientState where
  banner : Option Banner
  grid : GridView
  timers : List Timer
deriving DecidableEq, Repr

/-- One complete run of `loadAgents` given the fetch's outcome, executed
synchronously in a single event-loop turn once the fetch settles: on
success the banner goes online with the agent count and the grid shows
either the empty placeholder or one card per agent; on a non-ok response
or network error the grid shows the failure placeholder, the banner goes
offline, and exactly one one-shot 5000 ms retry timer is scheduled.
Existing timers are never cancelled or altered. -/
def loadAgentsStep (now : Int) (st : ClientState) (outcome : FetchOutcome) :
    ClientState :=
  match outcome with
  | .success agents =>
    { st with
      banner := some (.online agents.length)
      grid := if agents.isEmpty then .noAgentsYet
              else .cards (agents.map (createAgentCard now)) }
  | .httpError _ =>
    { st with
      banner := some .offline
      grid := .connectFailed
      timers := st.timers ++ [{ delayMs := 5000, oneShot := true }] }
  | .networkError =>
    { st with
      banner := some .offline
      grid := .connectFailed
      timers := st.timers ++ [{ delayMs := 5000, oneShot := true }] }

/-- The `DOMContentLoaded` handler: kicks off the first `loadAgents` and
schedules the steady 30000 ms repeating poll interval. -/
def pageInitTimers : List Timer :=
  [{ delayMs := 30000, oneShot := false }]

end DirectoryClient

/-! ## Helper lemmas about the schema-deploy loops -/

namespace DeploySchema

/-- The delete loop issues exactly one delete call per listed class name,
in order, regardless of which deletions succeed. -/
theorem deleteLoop_ops (ok : String → Bool) (names : List String) :
    ∀ store, (deleteLoop ok store names).2 = names.map DeployOp.deleteOp := by
  induction names with
  | nil => intro store; simp [deleteLoop]
  | cons n rest ih => intro store; simp [deleteLoop, ih]

/-- When every listed deletion succeeds, the delete loop removes exactly
the listed names from the store. -/
theorem deleteLoop_store_all_ok (ok : String → Bool) (names : List String)
    (h : ∀ n ∈ names, ok n = true) :
    ∀ store, (deleteLoop ok store names).1
      = store.filter (fun c => !names.contains c) := by
  induction names with
  | nil => intro store; simp [deleteLoop]
  | cons n rest ih =>
    intro store
    have hn : ok n = true := h n (List.mem_cons_self n rest)
    have hrest : ∀ m ∈ rest, ok m = true := fun m hm => h m (List.mem_cons_of_mem n hm)
    simp only [deleteLoop, deleteClass, hn, if_pos, ih hrest, List.filter_filter]
    apply List.filter_congr
    intro c _
    simp [eq_comm, Bool.and_comm]

/-- The create loop issues exactly one create call per declared class,
in order, regardless of which creations succeed. -/
theorem createLoop_ops (ok : String → Bool) (l : List String) :
    ∀ store, (createLoop ok store l).2.2 = l.map DeployOp.createOp := by
  induction l with
  | nil => intro store; simp [createLoop]
  | cons n rest ih => intro store; simp [createLoop, ih]

/-- When every declared creation succeeds, the create loop appends every
declared class in order and counts them all. -/
theorem createLoop_all_ok (ok : String → Bool) (l : List String)
    (h : ∀ n ∈ l, ok n = true) :
    ∀ store, createLoop ok store l = (store ++ l, l.length, l.map DeployOp.createOp) := by
  induction l with
  | nil => intro store; simp [createLoop]
  | cons n rest ih =>
    intro store
    have hn : ok n = true := h n (List.mem_cons_self n rest)
    have hrest : ∀ m ∈ rest, ok m = true := fun m hm => h m (List.mem_cons_of_mem n hm)
    simp [createLoop, createClass, hn, ih hrest, Nat.add_comm]

end DeploySchema

namespace Claims

open DeploySchema

/-- C4: for a provision call with `force=false` and at least one
pre-existing class whose name collides with a declared definition, the
call issues zero create and zero delete operations, leaves the store's
class list unchanged, and reports the conflict skip instead of
deploying. -/
theorem deploySchema_conflict_noop (declared store : List String)
    (deleteOk createOk : String → Bool) (c : String)
    (hpre : c ∈ store) (hdecl : c ∈ declared) :
    deploySchema declared store false deleteOk createOk false =
      { store := store, successCount := 0, deployed := false,
        skippedConflict := true, ops := [] } := by
  have hlen : 0 < store.length := List.length_pos.mpr (List.ne_nil_of_mem hpre)
  simp [deploySchema, checkExistingSchema, hlen]

/-- Witness for C4 at a concrete colliding store. -/
theorem deploySchema_conflict_noop_witness :
    deploySchema ["Agent", "DriftPulse", "TrustmarkEntry"] ["Agent", "Stale"] false
        (fun _ => true) (fun _ => true) false =
      { store := ["Agent", "Stale"], successCount := 0, deployed := false,
        skippedConflict := true, ops := [] } :=
  deploySchema_conflict_noop _ _ _ _ "Agent" (by simp) (by simp)

/-- C5: for a provision call with `force=true` in which every individual
delete and create succeeds, every pre-existing class is deleted first,
then every declared class is created in the order given, and the final
class list equals exactly the declared list no matter what the store
held before. -/
theorem deploySchema_force_exact (declared store : List String)
    (deleteOk createOk : String → Bool)
    (hdel : ∀ n ∈ store, deleteOk n = true)
    (hcre : ∀ n ∈ declared, createOk n = true) :
    deploySchema declared store false deleteOk createOk true =
      { store := declared, successCount := declared.length,
        deployed := true, skippedConflict := false,
        ops := store.map DeployOp.deleteOp ++ declared.map DeployOp.createOp } := by
  rcases store with _ | ⟨s, ss⟩
  · simp [deploySchema, checkExistingSchema, createLoop_all_ok createOk declared hcre]
  · have hdeleted : (deleteLoop deleteOk (s :: ss) (s :: ss)).1 = [] := by
      rw [deleteLoop_store_all_ok deleteOk _ hdel]
      refine List.filter_eq_nil_iff.mpr ?_
      intro a ha
      simp [ha]
    simp [deploySchema, checkExistingSchema, hdeleted, deleteLoop_ops,
      createLoop_all_ok createOk declared hcre]

/-- Witness for C5 at a concrete store and declared list. -/
theorem deploySchema_force_exact_witness :
    deploySchema ["Agent", "DriftPulse", "TrustmarkEntry"] ["Agent", "Stale"] false
        (fun _ => true) (fun _ => true) true =
      { store := ["Agent", "DriftPulse", "TrustmarkEntry"], successCount := 3,
        deployed := true, skippedConflict := false,
        ops := [DeployOp.deleteOp "Agent", DeployOp.deleteOp "Stale",
                DeployOp.createOp "Agent", DeployOp.createOp "DriftPulse",
                DeployOp.createOp "TrustmarkEntry"] } :=
  deploySchema_force_exact _ _ _ _ (fun _ _ => rfl) (fun _ _ => rfl)

/-- C3 counterexample: with `force=false` and a single pre-existing
class whose name is disjoint from every declared definition, the call
still takes the "skipped — conflict" no-op outcome and creates nothing,
contrary to the claim that non-colliding leftovers do not prevent
creation. -/
theorem deploySchema_skips_on_disjoint_leftover :
    (deploySchema ["Agent", "DriftPulse", "TrustmarkEntry"] ["LegacyCache"] false
        (fun _ => true) (fun _ => true) false).skippedConflict = true ∧
    (deploySchema ["Agent", "DriftPulse", "TrustmarkEntry"] ["LegacyCache"] false
        (fun _ => true) (fun _ => true) false).ops = [] ∧
    "LegacyCache" ∉ ["Agent", "DriftPulse", "TrustmarkEntry"] := by
  refine ⟨rfl, rfl, by decide⟩

/-- C3 amended: with `force=false` the "skipped — conflict" no-op
outcome occurs exactly when the schema query reports any existing class
at all, colliding or not; the declared classes are created only when the
reported class list is empty. -/
theorem deploySchema_skip_iff_any_existing (declared store : List String)
    (deleteOk createOk : String → Bool) :
    (deploySchema declared store false deleteOk createOk false).skippedConflict
      = !store.isEmpty ∧
    (deploySchema declared ([] : List String) false deleteOk createOk false).ops
      = declared.map DeployOp.createOp := by
  constructor
  · rcases store with _ | ⟨s, ss⟩ <;> simp [deploySchema, checkExistingSchema]
  · simp [deploySchema, checkExistingSchema, createLoop_ops]

/-- C9: when the existing-schema query throws, the failure is swallowed
and treated as an empty class list, so a `force=false` deployment
detects no conflict and proceeds to issue a create for every declared
class, bypassing the conflict safety check. -/
theorem deploySchema_swallows_query_failure (declared store : List String)
    (deleteOk createOk : String → Bool) :
    checkExistingSchema store true = [] ∧
    (deploySchema declared store true deleteOk createOk false).skippedConflict = false ∧
    (deploySchema declared store true deleteOk createOk false).ops
      = declared.map DeployOp.createOp := by
  refine ⟨rfl, ?_, ?_⟩ <;>
    simp [deploySchema, checkExistingSchema, createLoop_ops]

/-- C2 counterexample: both CLI scripts exit 0 on runs whose post-run
verification is incomplete.  The genesis-seed main exits 0 although the
verified trustmark count (1) differs from the expected count (2), and
the schema-deploy main exits 0 although its only declared class failed
to create and verification finds it missing. -/
theorem cli_exit_zero_despite_failed_verification :
    GenesisSeed.main true (fun a => some a.cnsId) (fun _ => none) (some (4, 1)) =
      { exitCode := 0, verificationComplete := false } ∧
    DeploySchema.main ["Agent"] true [] false (fun _ => true) (fun _ => false)
        true false =
      { exitCode := 0, verificationComplete := false } := by
  constructor <;> rfl

/-- C2 amended: absent an unhandled exception, each CLI script's exit
code is 0 exactly when its connectivity check succeeds; a connectivity
failure exits non-zero, but incomplete post-run verification (mismatched
counts or missing classes) and the conflict-skip path still exit 0. -/
theorem cli_exit_zero_iff_connected (connected : Bool)
    (insertAgent : GenesisSeed.GenesisAgent → Option String)
    (insertTrustmark : GenesisSeed.TrustmarkPayload → Option String)
    (verifyQueryResult : Option (Nat × Nat))
    (declared store : List String) (queryFails : Bool)
    (deleteOk createOk : String → Bool) (forceMode verifyQueryFails : Bool) :
    ((GenesisSeed.main connected insertAgent insertTrustmark
        verifyQueryResult).exitCode = 0 ↔ connected = true) ∧
    ((DeploySchema.main declared connected store queryFails deleteOk createOk
        forceMode verifyQueryFails).exitCode = 0 ↔ connected = true) := by
  cases connected
  · simp [GenesisSeed.main, DeploySchema.main]
  · refine ⟨by simp [GenesisSeed.main], ?_⟩
    simp only [DeploySchema.main]
    split
    · simp_all
    · split <;> simp

end Claims

namespace Claims

open DirectoryClient

/-- C7: the status badge of every rendered agent card is active exactly
when the record's heartbeat is present and strictly less than 300000 ms
old; an absent heartbeat renders dormant without error, and a heartbeat
exactly 300000 ms old is not active. -/
theorem agentCard_isActive_iff (now : Int) (agent : AgentInfo) :
    ((createAgentCard now agent).statusActive = true ↔
       ∃ hb, agent.last_heartbeat = some hb ∧ now - hb < 300000) ∧
    isActiveStatus now none = false ∧
    (∀ hb : Int, isActiveStatus (hb + 300000) (some hb) = false) := by
  refine ⟨?_, rfl, fun hb => ?_⟩
  · cases h : agent.last_heartbeat <;>
      simp [createAgentCard, isActiveStatus, h]
  · simp [isActiveStatus]

/-- C8: on any fetch failure (non-2xx response or network rejection),
the `loadAgents` handler itself — a single synchronous step of the event
loop — flips the banner to offline, shows the failure placeholder, and
appends exactly one one-shot 5000 ms retry timer without touching or
cancelling any existing timer (in particular the steady 30000 ms poll
interval scheduled at page load keeps running), and the retry delay is
the fixed constant 5000 regardless of state, never an incrementing
backoff. -/
theorem loadAgents_failure_path (now : Int) (st : ClientState)
    (outcome : FetchOutcome)
    (h : outcome = .networkError ∨ ∃ s, outcome = .httpError s) :
    (loadAgentsStep now st outcome).banner = some .offline ∧
    (loadAgentsStep now st outcome).grid = .connectFailed ∧
    (loadAgentsStep now st outcome).timers
      = st.timers ++ [{ delayMs := 5000, oneShot := true }] ∧
    pageInitTimers = [{ delayMs := 30000, oneShot := false }] := by
  rcases h with h | ⟨s, h⟩ <;> subst h <;>
    exact ⟨rfl, rfl, rfl, rfl⟩

/-- Witness for C8 at a concrete page state and a network rejection. -/
theorem loadAgents_failure_path_witness :
    (loadAgentsStep 0
        { banner := none, grid := .loading, timers := pageInitTimers }
        .networkError).banner = some .offline ∧
    (loadAgentsStep 0
        { banner := none, grid := .loading, timers := pageInitTimers }
        .networkError).grid = .connectFailed ∧
    (loadAgentsStep 0
        { banner := none, grid := .loading, timers := pageInitTimers }
        .networkError).timers
      = pageInitTimers ++ [{ delayMs := 5000, oneShot := true }] ∧
    pageInitTimers = [{ delayMs := 30000, oneShot := false }] :=
  loadAgents_failure_path 0
    { banner := none, grid := .loading, timers := pageInitTimers }
    .networkError (Or.inl rfl)

end Claims

/-! ## Helper lemmas about the seeding phases -/

namespace GenesisSeed

/-- Phase 1 records one `Agent` insertion event per listed agent, in
list order, whether or not the insertion succeeds. -/
theorem seedAgentsLoop_trace (insert : GenesisAgent → Option String)
    (agents : List GenesisAgent) :
    ∀ m c, (seedAgentsLoop insert agents m c).2.2
      = agents.map (fun a => SeedEvent.agentInsert a.cnsId) := by
  induction agents with
  | nil => intro m c; simp [seedAgentsLoop]
  | cons a rest ih =>
    intro m c
    cases h : seedAgent insert a <;> simp [seedAgentsLoop, h, ih]

/-- Phase 2 records only `TrustmarkEntry` insertion events. -/
theorem seedTrustmarksLoop_no_agent_event
    (insert : TrustmarkPayload → Option String)
    (agentIdMap : List (String × String)) (tms : List TrustmarkSeed) :
    ((seedTrustmarksLoop insert agentIdMap tms).2.2).all
      (fun e => !e.isAgentInsert) = true := by
  induction tms with
  | nil => simp [seedTrustmarksLoop]
  | cons t rest ih =>
    simp only [seedTrustmarksLoop, List.all_append, Bool.and_eq_true]
    refine ⟨?_, ih⟩
    simp [SeedEvent.isAgentInsert]

/-- Phase 1 characterised: when the listed agents carry pairwise
distinct external ids none of which is already a key of the
accumulator, the loop extends the map by exactly one entry per
insertion that returned an identifier, and the count it reports is
exactly the number of such insertions. -/
theorem seedAgentsLoop_spec (insert : GenesisAgent → Option String)
    (agents : List GenesisAgent) :
    ∀ (m : List (String × String)) (c : Nat),
    (∀ p ∈ m, p.1 ∉ agents.map (fun a => a.cnsId)) →
    (agents.map (fun a => a.cnsId)).Nodup →
    (seedAgentsLoop insert agents m c).1
        = m ++ agents.filterMap (fun a => (insert a).map (fun id => (a.cnsId, id))) ∧
    (seedAgentsLoop insert agents m c).2.1
        = c + (agents.filter (fun a => (insert a).isSome)).length := by
  induction agents with
  | nil => intro m c _ _; simp [seedAgentsLoop]
  | cons a rest ih =>
    intro m c hdisj hnd
    have hnd' : (rest.map (fun a => a.cnsId)).Nodup := (List.nodup_cons.mp hnd).2
    have hhead : a.cnsId ∉ rest.map (fun a => a.cnsId) := (List.nodup_cons.mp hnd).1
    cases h : seedAgent insert a with
    | some id =>
      have hins : insert a = some id := by simpa [seedAgent] using h
      have hfresh : (m.any fun p => p.1 = a.cnsId) = false := by
        rw [List.any_eq_false]
        intro p hp
        have hnot := hdisj p hp
        simp only [List.map_cons, List.mem_cons] at hnot
        simpa using fun hpa => hnot (Or.inl hpa)
      have hassign : mapAssign m a.cnsId id = m ++ [(a.cnsId, id)] := by
        simp [mapAssign, hfresh]
      have hdisj' : ∀ p ∈ m ++ [(a.cnsId, id)], p.1 ∉ rest.map (fun a => a.cnsId) := by
        intro p hp
        rcases List.mem_append.mp hp with hp | hp
        · have hnot := hdisj p hp
          simp only [List.map_cons, List.mem_cons] at hnot
          exact fun hmem => hnot (Or.inr hmem)
        · simp only [List.mem_singleton] at hp
          subst hp
          exact hhead
      rcases ih (m ++ [(a.cnsId, id)]) (c + 1) hdisj' hnd' with ⟨h1, h2⟩
      constructor
      · simp [seedAgentsLoop, h, hassign, h1, List.filterMap_cons, hins]
      · simp [seedAgentsLoop, h, hassign, h2, List.filter_cons, hins]
        omega
    | none =>
      have hins : insert a = none := by simpa [seedAgent] using h
      have hdisj' : ∀ p ∈ m, p.1 ∉ rest.map (fun a => a.cnsId) := by
        intro p hp
        have hnot := hdisj p hp
        simp only [List.map_cons, List.mem_cons] at hnot
        exact fun hmem => hnot (Or.inr hmem)
      rcases ih m c hdisj' hnd' with ⟨h1, h2⟩
      constructor
      · simp [seedAgentsLoop, h, h1, List.filterMap_cons, hins]
      · simp [seedAgentsLoop, h, h2, List.filter_cons, hins]

/-- A successful-insertion table's key list is the external-id list of
the successfully inserted agents. -/
theorem keys_filterMap_insert (insert : GenesisAgent → Option String)
    (l : List GenesisAgent) :
    (l.filterMap (fun a => (insert a).map (fun id => (a.cnsId, id)))).map
        (fun p => p.1)
      = (l.filter (fun a => (insert a).isSome)).map (fun a => a.cnsId) := by
  induction l with
  | nil => simp
  | cons a rest ih =>
    cases h : insert a <;> simp [List.filterMap_cons, List.filter_cons, h, ih]

/-- Looking an external id up in the transient map succeeds exactly
when the id is among the map's keys. -/
theorem lookupId_isSome (m : List (String × String)) (k : String) :
    (lookupId m k).isSome = (m.map (fun p => p.1)).contains k := by
  induction m with
  | nil => simp [lookupId]
  | cons p rest ih =>
    by_cases h : p.1 = k
    · simp [lookupId, List.find?_cons, h]
    · have h2 : ¬k = p.1 := fun hk => h hk.symm
      have h3 : (k == p.1) = false := beq_eq_false_iff_ne.mpr h2
      simp [lookupId, List.find?_cons, h, h3] at ih ⊢
      exact ih

end GenesisSeed

namespace Claims

open GenesisSeed

/-- C1: in every seeding run, the trace of attempted store insertions
begins with exactly one `Agent` insertion per genesis agent, awaited in
list order, and every later event is a `TrustmarkEntry` insertion: no
attestation insertion is attempted until the whole agent phase has
completed. -/
theorem seedGenesisData_phase_ordering
    (insertAgent : GenesisAgent → Option String)
    (insertTrustmark : TrustmarkPayload → Option String) :
    (seedGenesisData insertAgent insertTrustmark).trace.take genesisAgents.length
      = genesisAgents.map (fun a => SeedEvent.agentInsert a.cnsId) ∧
    ((seedGenesisData insertAgent insertTrustmark).trace.drop
        genesisAgents.length).all (fun e => !e.isAgentInsert) = true := by
  have htr : (seedGenesisData insertAgent insertTrustmark).trace
      = genesisAgents.map (fun a => SeedEvent.agentInsert a.cnsId)
        ++ (seedTrustmarksLoop insertTrustmark
              (seedAgentsLoop insertAgent genesisAgents [] 0).1
              genesisTrustmarks).2.2 := by
    simp [seedGenesisData, seedAgentsLoop_trace]
  have hlen : genesisAgents.length
      = (genesisAgents.map (fun a => SeedEvent.agentInsert a.cnsId)).length := by
    simp
  constructor
  · rw [htr, hlen, List.take_left]
  · rw [htr, hlen, List.drop_left]
    exact seedTrustmarksLoop_no_agent_event insertTrustmark _ genesisTrustmarks

/-- C6: `seedTrustmark` never touches the store when the subject or the
issuer external id is missing from the phase-1 map — the attempted
insertion list is empty and the outcome is the skip marker, a reporting
outcome distinct from the store-rejection marker; when both ids resolve,
the one attempted insertion carries beacon references to exactly the two
resolved internal identifiers. -/
theorem seedTrustmark_skip_and_references
    (insert : TrustmarkPayload → Option String)
    (trustmarkData : TrustmarkSeed) (agentIdMap : List (String × String)) :
    (lookupId agentIdMap trustmarkData.agentCnsId = none ∨
        lookupId agentIdMap trustmarkData.issuerCnsId = none →
      seedTrustmark insert trustmarkData agentIdMap
        = (TrustmarkResult.skippedMissingIds, [])) ∧
    TrustmarkResult.skippedMissingIds ≠ TrustmarkResult.failed ∧
    (∀ a i, lookupId agentIdMap trustmarkData.agentCnsId = some a →
      lookupId agentIdMap trustmarkData.issuerCnsId = some i →
      (seedTrustmark insert trustmarkData agentIdMap).2
        = [{ seed := trustmarkData,
             agentBeacon := "weaviate://localhost/Agent/" ++ a,
             issuerBeacon := "weaviate://localhost/Agent/" ++ i }]) := by
  refine ⟨?_, by simp, ?_⟩
  · rintro (h | h)
    · simp [seedTrustmark, h]
    · cases h2 : lookupId agentIdMap trustmarkData.agentCnsId <;>
        simp [seedTrustmark, h, h2]
  · intro a i ha hi
    simp only [seedTrustmark, ha, hi]
    split <;> rfl

/-- Witness for C6: a concrete skipped attestation (issuer resolvable,
subject absent from the map) and a concrete fully resolved attestation
whose attempted insertion references both internal identifiers. -/
theorem seedTrustmark_skip_and_references_witness :
    seedTrustmark (fun _ => some "tm-uuid-1")
        { agentCnsId := "ghost-001", issuerCnsId := "sage-evermore-001",
          trustmarkType := "integrity", criteria := [], evidenceCid := "cid-0",
          awardedAt := "2025-12-28T00:00:00Z", revoked := false }
        [("sage-evermore-001", "uuid-sage")]
      = (TrustmarkResult.skippedMissingIds, []) ∧
    (seedTrustmark (fun _ => some "tm-uuid-1")
        { agentCnsId := "comet-evermore-001", issuerCnsId := "sage-evermore-001",
          trustmarkType := "integrity", criteria := [], evidenceCid := "cid-0",
          awardedAt := "2025-12-28T00:00:00Z", revoked := false }
        [("comet-evermore-001", "uuid-comet"), ("sage-evermore-001", "uuid-sage")]).2
      = [{ seed := { agentCnsId := "comet-evermore-001",
                     issuerCnsId := "sage-evermore-001",
                     trustmarkType := "integrity", criteria := [],
                     evidenceCid := "cid-0",
                     awardedAt := "2025-12-28T00:00:00Z", revoked := false },
           agentBeacon := "weaviate://localhost/Agent/uuid-comet",
           issuerBeacon := "weaviate://localhost/Agent/uuid-sage" }] := by
  constructor
  · exact (seedTrustmark_skip_and_references _ _ _).1 (Or.inl rfl)
  · exact (seedTrustmark_skip_and_references _ _ _).2.2 "uuid-comet" "uuid-sage" rfl rfl

/-- C10: in every seeding run, the transient map holds exactly one
entry per agent insertion that returned an identifier, the reported
phase-1 success count equals the number of entries, the map's key list
is exactly the list of external ids of the successfully inserted
agents, and an external id resolves in phase 2 exactly when it is among
those keys. -/
theorem seedGenesisData_map_tracks_successes
    (insertAgent : GenesisAgent → Option String)
    (insertTrustmark : TrustmarkPayload → Option String) :
    (seedGenesisData insertAgent insertTrustmark).agentCount
      = (seedGenesisData insertAgent insertTrustmark).agentIdMap.length ∧
    (seedGenesisData insertAgent insertTrustmark).agentIdMap.map (fun p => p.1)
      = (genesisAgents.filter (fun a => (insertAgent a).isSome)).map
          (fun a => a.cnsId) ∧
    (∀ k : String,
      (lookupId (seedGenesisData insertAgent insertTrustmark).agentIdMap k).isSome
        = ((genesisAgents.filter (fun a => (insertAgent a).isSome)).map
            (fun a => a.cnsId)).contains k) := by
  have hnd : (genesisAgents.map (fun a => a.cnsId)).Nodup := by decide
  obtain ⟨h1, h2⟩ :=
    seedAgentsLoop_spec insertAgent genesisAgents [] 0 (by simp) hnd
  have hmap : (seedGenesisData insertAgent insertTrustmark).agentIdMap
      = genesisAgents.filterMap
          (fun a => (insertAgent a).map (fun id => (a.cnsId, id))) := by
    simp [seedGenesisData, h1]
  have hcount : (seedGenesisData insertAgent insertTrustmark).agentCount
      = (genesisAgents.filter (fun a => (insertAgent a).isSome)).length := by
    simp [seedGenesisData, h2]
  have hkeys : (seedGenesisData insertAgent insertTrustmark).agentIdMap.map
        (fun p => p.1)
      = (genesisAgents.filter (fun a => (insertAgent a).isSome)).map
          (fun a => a.cnsId) := by
    rw [hmap, keys_filterMap_insert]
  refine ⟨?_, hkeys, ?_⟩
  · rw [hcount]
    have hlen := congrArg List.length hkeys
    simpa using hlen.symm
  · intro k
    rw [lookupId_isSome, hkeys]

end Claims
